import Mathlib

/-
Verification of the Financial-Planning-Engine retirement projection core.

Shallow embedding conventions:
- Python floats are modelled as exact rationals (ℚ).
- Python exceptions (ValueError) are modelled with `Except String`.
- Python dicts returned by the analyzers are modelled as ordered association
  lists from field names to `Metric` values (numeric or status string),
  mirroring the insertion order of the source dict literals.
- Python ints used as year counts are modelled as ℕ.
- Filing statuses are the four valid keys of the bracket tables.
- Advisory warnings (warnings.warn / print) do not affect return values; the
  condition under which a warning statement executes is extracted as a
  separate boolean definition (e.g. `nobility_warns`).
-/

namespace FinPlan

/-- The four retirement financial goals (retirement_planner.FinGoal). -/
inductive FinGoal
| Supplemented
| Sustainable
| Generational
| Nobility
deriving DecidableEq

/-- The four valid tax filing statuses (keys of finlib's bracket tables). -/
inductive FilingStatus
| single
| married_joint
| married_separate
| head_household
deriving DecidableEq

/-- Desired growth rate for nobility wealth (retirement_planner.NG = 0.02). -/
def NG : ℚ := 2 / 100

/-- Percentage of income that must come from savings (retirement_planner.SP = 0.40). -/
def SP : ℚ := 40 / 100

/-- Inflation rate constant (retirement_planner.I = 0.03). -/
def I : ℚ := 3 / 100

/-- True exactly when an `Except` computation ended in an error. -/
def isErr {ε α : Type} : Except ε α → Bool
| Except.error _ => true
| Except.ok _ => false

/-- retirement_planner.comfy_retirement: principal for a comfortable
(Sustainable) retirement; raises when return ≤ inflation. -/
def comfy_retirement (desired_income : ℚ) (retirement_duration : ℕ)
    (rate_of_return rate_of_inflation : ℚ) : Except String ℚ :=
if rate_of_return ≤ rate_of_inflation then
  Except.error "Rate of return must be greater than inflation rate"
else
  Except.ok (desired_income *
    ((1 - ((1 + rate_of_inflation) / (1 + rate_of_return)) ^ retirement_duration)
      / (rate_of_return - rate_of_inflation)))

/-- retirement_planner.supplemented_retirement: only SP of the income must come
from savings; delegates to comfy_retirement. -/
def supplemented_retirement (desired_income : ℚ) (retirement_duration : ℕ)
    (rate_of_return rate_of_inflation : ℚ) : Except String ℚ :=
comfy_retirement (desired_income * SP) retirement_duration rate_of_return rate_of_inflation

/-- retirement_planner.generational_wealth: perpetuity-with-growth principal;
raises when return ≤ inflation. -/
def generational_wealth (desired_income : ℚ) (retirement_duration : ℕ)
    (rate_of_return rate_of_inflation : ℚ) : Except String ℚ :=
if rate_of_return ≤ rate_of_inflation then
  Except.error "Rate of return must be greater than inflation rate"
else
  Except.ok (desired_income / (rate_of_return - rate_of_inflation))

/-- Condition under which generational_wealth prints its precision warning:
the error branch was not taken and return - inflation < 0.01. -/
def generational_warns (rate_of_return rate_of_inflation : ℚ) : Bool :=
decide (rate_of_inflation < rate_of_return ∧ rate_of_return - rate_of_inflation < 1 / 100)

/-- retirement_planner.nobility_wealth: perpetuity with an added real-growth
increment NG; falls back to generational_wealth when return ≤ inflation + NG. -/
def nobility_wealth (desired_income : ℚ) (retirement_duration : ℕ)
    (rate_of_return rate_of_inflation : ℚ) : Except String ℚ :=
if rate_of_return ≤ rate_of_inflation + NG then
  generational_wealth desired_income retirement_duration rate_of_return rate_of_inflation
else
  Except.ok (desired_income / (rate_of_return - rate_of_inflation - NG))

/-- Condition under which nobility_wealth executes its warnings.warn call:
exactly when the fallback branch is taken. -/
def nobility_warns (rate_of_return rate_of_inflation : ℚ) : Bool :=
decide (rate_of_return ≤ rate_of_inflation + NG)

/-- retirement_planner.calculate_principal_by_goal: goal-to-formula dispatch. -/
def calculate_principal_by_goal (future_income : ℚ) (retirement_time : ℕ)
    (rate_of_return inflation_rate : ℚ) : FinGoal → Except String ℚ
| FinGoal.Supplemented =>
    supplemented_retirement future_income retirement_time rate_of_return inflation_rate
| FinGoal.Sustainable =>
    comfy_retirement future_income retirement_time rate_of_return inflation_rate
| FinGoal.Generational =>
    generational_wealth future_income retirement_time rate_of_return inflation_rate
| FinGoal.Nobility =>
    nobility_wealth future_income retirement_time rate_of_return inflation_rate

/-- finlib.constant_contribution: future value of a constant yearly
contribution C at return R over T years. -/
def constant_contribution (R : ℚ) (T : ℕ) (C : ℚ) : ℚ :=
C * ((1 + R) ^ T - 1) / R

/-- finlib.required_constant_contribution: yearly contribution needed to reach
target_amount; raises when the rate of return is not positive. -/
def required_constant_contribution (target_amount rate_of_return : ℚ)
    (investment_duration : ℕ) : Except String ℚ :=
if rate_of_return ≤ 0 then
  Except.error "Rate of return must be positive"
else
  Except.ok (target_amount * rate_of_return /
    ((1 + rate_of_return) ^ investment_duration - 1))

/-- Social Security wage cap used by finlib.calculate_fica. -/
def social_security_cap : ℚ := 168600

/-- Additional Medicare Tax thresholds (finlib.calculate_fica). -/
def addl_medicare_threshold : FilingStatus → ℚ
| FilingStatus.single => 200000
| FilingStatus.married_joint => 250000
| FilingStatus.married_separate => 125000
| FilingStatus.head_household => 200000

/-- finlib.calculate_fica: Social Security + Medicare + additional Medicare. -/
def calculate_fica (income : ℚ) (filing_status : FilingStatus) : ℚ :=
min income social_security_cap * (62 / 1000) + income * (145 / 10000) +
  (if income > addl_medicare_threshold filing_status then
    (income - addl_medicare_threshold filing_status) * (9 / 1000)
  else 0)

/-- Ordinary-income tax brackets, 2024 rates (finlib.calculate_post_tax_income);
`none` is the infinite top bracket bound. -/
def brackets : FilingStatus → List (Option ℚ × ℚ)
| FilingStatus.single =>
    [(some 11600, 10/100), (some 47150, 12/100), (some 100525, 22/100),
     (some 191950, 24/100), (some 243725, 32/100), (some 609350, 35/100),
     (none, 37/100)]
| FilingStatus.married_joint =>
    [(some 23200, 10/100), (some 94300, 12/100), (some 201050, 22/100),
     (some 383900, 24/100), (some 487450, 32/100), (some 731200, 35/100),
     (none, 37/100)]
| FilingStatus.married_separate =>
    [(some 11600, 10/100), (some 47150, 12/100), (some 100525, 22/100),
     (some 191950, 24/100), (some 243725, 32/100), (some 365600, 35/100),
     (none, 37/100)]
| FilingStatus.head_household =>
    [(some 16550, 10/100), (some 63100, 12/100), (some 100500, 22/100),
     (some 191950, 24/100), (some 243700, 32/100), (some 609350, 35/100),
     (none, 37/100)]

/-- Standard deductions, 2024 rates (finlib.calculate_post_tax_income). -/
def std_deduction : FilingStatus → ℚ
| FilingStatus.single => 14600
| FilingStatus.married_joint => 29200
| FilingStatus.married_separate => 14600
| FilingStatus.head_household => 21900

/-- The progressive bracket walk of finlib.calculate_post_tax_income: for each
bracket, if taxable income exceeds the previous upper bound, tax the part of it
that falls inside the bracket; stop once taxable income is fully consumed. An
upper bound of `none` stands for the infinite sentinel. -/
def bracket_tax (taxable_income : ℚ) : ℚ → List (Option ℚ × ℚ) → ℚ
| _, [] => 0
| previous_bracket, (none, rate) :: _ =>
    if previous_bracket < taxable_income then
      (taxable_income - previous_bracket) * rate
    else 0
| previous_bracket, (some bracket_max, rate) :: rest =>
    if previous_bracket < taxable_income then
      min (taxable_income - previous_bracket) (bracket_max - previous_bracket) * rate +
        (if taxable_income ≤ bracket_max then 0
         else bracket_tax taxable_income bracket_max rest)
    else bracket_tax taxable_income bracket_max rest

/-- finlib.calculate_post_tax_income: returns (post-tax income, effective tax
rate), the rate defined as 0 when income is not positive. -/
def calculate_post_tax_income (income : ℚ) (filing_status : FilingStatus) : ℚ × ℚ :=
let taxable_income := max 0 (income - std_deduction filing_status)
let total_tax := bracket_tax taxable_income 0 (brackets filing_status)
let fica_tax := calculate_fica income filing_status
(income - total_tax - fica_tax,
 if 0 < income then (total_tax + fica_tax) / income else 0)

/-- One metric of an analyzer's result dict: a number or a status string. -/
inductive Metric
| num (v : ℚ)
| str (s : String)
deriving DecidableEq

/-- An analyzer's result dict, in insertion order. -/
abbrev AccountResult := List (String × Metric)

/-- retirement_planner.analyze_brokerage_account: principal from the
capital-gains-dragged growth rate, contribution from the full growth rate. -/
def analyze_brokerage_account (future_income growth_rate inflation_rate : ℚ)
    (investment_time retirement_time : ℕ) (goal : FinGoal) :
    Except String AccountResult := do
  let brokerage_effective_growth := growth_rate - growth_rate * (15 / 100)
  let principal ← calculate_principal_by_goal
    future_income retirement_time brokerage_effective_growth inflation_rate goal
  let contribution ← required_constant_contribution principal growth_rate investment_time
  pure [("Principal Required", Metric.num principal),
        ("Yearly Contribution", Metric.num contribution)]

/-- retirement_planner.analyze_traditional_ira: income grossed up by the
withdrawal tax rate; limit flag only when contribution strictly exceeds it. -/
def analyze_traditional_ira (future_income growth_rate inflation_rate : ℚ)
    (investment_time retirement_time : ℕ) (goal : FinGoal)
    (filing_status : FilingStatus) (annual_contribution_limit : ℚ) :
    Except String AccountResult := do
  let withdrawal_tax_rate := (calculate_post_tax_income future_income filing_status).2
  let principal ← calculate_principal_by_goal
    (future_income / (1 - withdrawal_tax_rate)) retirement_time growth_rate inflation_rate goal
  let required_contribution ← required_constant_contribution principal growth_rate investment_time
  pure [("Principal Required", Metric.num principal),
        ("Yearly Contribution", Metric.num required_contribution),
        ("Contribution Limit Met?",
          Metric.str (if required_contribution > annual_contribution_limit then "Yes" else "No"))]

/-- retirement_planner.analyze_roth_ira: withdrawals untaxed; limit flag only
when contribution strictly exceeds the annual limit. -/
def analyze_roth_ira (future_income growth_rate inflation_rate : ℚ)
    (investment_time retirement_time : ℕ) (goal : FinGoal)
    (annual_contribution_limit : ℚ) : Except String AccountResult := do
  let principal ← calculate_principal_by_goal
    future_income retirement_time growth_rate inflation_rate goal
  let required_contribution ← required_constant_contribution principal growth_rate investment_time
  pure [("Principal Required", Metric.num principal),
        ("Yearly Contribution", Metric.num required_contribution),
        ("Contribution Limit Met?",
          Metric.str (if required_contribution > annual_contribution_limit then "Yes" else "No"))]

/-- retirement_planner.analyze_traditional_401k: gross-up as the traditional
IRA, then an employee/employer split by the employer-match fraction. -/
def analyze_traditional_401k (future_income growth_rate inflation_rate : ℚ)
    (investment_time retirement_time : ℕ) (goal : FinGoal)
    (filing_status : FilingStatus) (annual_contribution_limit employer_match : ℚ) :
    Except String AccountResult := do
  let withdrawal_tax_rate := (calculate_post_tax_income future_income filing_status).2
  let principal ← calculate_principal_by_goal
    (future_income / (1 - withdrawal_tax_rate)) retirement_time growth_rate inflation_rate goal
  let base_contribution ← required_constant_contribution principal growth_rate investment_time
  let employee_contribution := base_contribution * (1 - employer_match)
  let employer_contribution := employee_contribution * employer_match
  let total_contribution := employee_contribution + employer_contribution
  pure [("Principal Required", Metric.num principal),
        ("Yearly Contribution", Metric.num employee_contribution),
        ("Employee Contribution", Metric.num employee_contribution),
        ("Employer Contribution", Metric.num employer_contribution),
        ("Total Contribution", Metric.num total_contribution),
        ("Contribution Limit Met?",
          Metric.str (if base_contribution > annual_contribution_limit then "Yes" else "No"))]

/-- retirement_planner.analyze_roth_401k: untaxed withdrawals, same
employee/employer split, plus an effective pre-tax cost of the contribution. -/
def analyze_roth_401k (future_income growth_rate inflation_rate : ℚ)
    (investment_time retirement_time : ℕ) (goal : FinGoal)
    (filing_status : FilingStatus) (annual_contribution_limit employer_match current_income : ℚ) :
    Except String AccountResult := do
  let principal ← calculate_principal_by_goal
    future_income retirement_time growth_rate inflation_rate goal
  let base_contribution ← required_constant_contribution principal growth_rate investment_time
  let employee_contribution := base_contribution * (1 - employer_match)
  let employer_contribution := employee_contribution * employer_match
  let total_contribution := employee_contribution + employer_contribution
  let effective_tax_rate := (calculate_post_tax_income current_income filing_status).2
  let effective_contribution := employee_contribution / (1 - effective_tax_rate)
  pure [("Principal Required", Metric.num principal),
        ("Yearly Contribution", Metric.num employee_contribution),
        ("Employee Contribution After-Tax", Metric.num employee_contribution),
        ("Employer Contribution Traditional", Metric.num employer_contribution),
        ("Total Contribution", Metric.num total_contribution),
        ("Effective Pre-Tax Cost", Metric.num effective_contribution),
        ("Contribution Limit Met?",
          Metric.str (if base_contribution > annual_contribution_limit then "Yes" else "No"))]

/-- retirement_planner.analyze_retirement_options: inflate the income need by
the inflation constant I over the accumulation horizon, then run all five
analyzers on that shared future income. -/
def analyze_retirement_options (quality_of_life growth_rate : ℚ)
    (investment_time retirement_time : ℕ) (goal : FinGoal)
    (filing_status : FilingStatus)
    (employer_match annual_contribution_limit_401k annual_contribution_limit_ira : ℚ) :
    Except String (List (String × AccountResult)) := do
  let future_income := quality_of_life * (1 + I) ^ investment_time
  let brokerage ← analyze_brokerage_account
    future_income growth_rate I investment_time retirement_time goal
  let trad_ira ← analyze_traditional_ira
    future_income growth_rate I investment_time retirement_time goal
    filing_status annual_contribution_limit_ira
  let roth_ira ← analyze_roth_ira
    future_income growth_rate I investment_time retirement_time goal
    annual_contribution_limit_ira
  let trad_401k ← analyze_traditional_401k
    future_income growth_rate I investment_time retirement_time goal
    filing_status annual_contribution_limit_401k employer_match
  let roth_401k ← analyze_roth_401k
    future_income growth_rate I investment_time retirement_time goal
    filing_status annual_contribution_limit_401k employer_match quality_of_life
  pure [("Brokerage Account", brokerage),
        ("Traditional IRA", trad_ira),
        ("Roth IRA", roth_ira),
        ("Traditional 401k", trad_401k),
        ("Roth 401k", roth_401k)]

/-- Well-formedness of a bracket tail relative to the previous upper bound:
every marginal rate lies in [0, 0.37] and upper bounds do not decrease. -/
def rates_bounded : ℚ → List (Option ℚ × ℚ) → Prop
| _, [] => True
| _, (none, rate) :: _ => 0 ≤ rate ∧ rate ≤ 37 / 100
| prev, (some m, rate) :: rest => 0 ≤ rate ∧ rate ≤ 37 / 100 ∧ prev ≤ m ∧ rates_bounded m rest

theorem bracket_tax_bounds (taxable : ℚ) :
    ∀ (l : List (Option ℚ × ℚ)) (prev : ℚ), rates_bounded prev l →
      0 ≤ bracket_tax taxable prev l ∧
      bracket_tax taxable prev l ≤ 37 / 100 * max 0 (taxable - prev) := by
  intro l
  induction l with
  | nil =>
    intro prev _
    refine ⟨le_refl 0, ?_⟩
    positivity
  | cons hd rest ih =>
    intro prev h
    obtain ⟨ub, rate⟩ := hd
    cases ub with
    | none =>
      obtain ⟨h0, h37⟩ := h
      simp only [bracket_tax]
      by_cases hc : prev < taxable
      · rw [if_pos hc]
        have hmax : max 0 (taxable - prev) = taxable - prev := max_eq_right (by linarith)
        rw [hmax]
        constructor
        · exact mul_nonneg (by linarith) h0
        · nlinarith
      · rw [if_neg hc]
        refine ⟨le_refl 0, ?_⟩
        positivity
    | some m =>
      obtain ⟨h0, h37, hpm, hrest⟩ := h
      have IH := ih m hrest
      simp only [bracket_tax]
      by_cases hc : prev < taxable
      · rw [if_pos hc]
        have hmax : max 0 (taxable - prev) = taxable - prev := max_eq_right (by linarith)
        rw [hmax]
        by_cases hm : taxable ≤ m
        · rw [if_pos hm]
          have hmin : min (taxable - prev) (m - prev) = taxable - prev :=
            min_eq_left (by linarith)
          rw [hmin]
          constructor
          · nlinarith
          · nlinarith
        · rw [if_neg hm]
          push_neg at hm
          have hmin : min (taxable - prev) (m - prev) = m - prev :=
            min_eq_right (by linarith)
          rw [hmin]
          have hmax2 : max 0 (taxable - m) = taxable - m := max_eq_right (by linarith)
          rw [hmax2] at IH
          constructor
          · nlinarith [IH.1]
          · nlinarith [IH.1, IH.2]
      · rw [if_neg hc]
        push_neg at hc
        have hmax2 : max 0 (taxable - m) = 0 := max_eq_left (by linarith)
        rw [hmax2] at IH
        refine ⟨IH.1, ?_⟩
        have hmx : 0 ≤ max 0 (taxable - prev) := le_max_left _ _
        nlinarith [IH.2]

theorem rates_bounded_brackets (fs : FilingStatus) : rates_bounded 0 (brackets fs) := by
  cases fs <;> norm_num [brackets, rates_bounded]

theorem fica_bounds (income : ℚ) (fs : FilingStatus) (h : 0 ≤ income) :
    0 ≤ calculate_fica income fs ∧ calculate_fica income fs ≤ 855 / 10000 * income := by
  have hthr : 0 < addl_medicare_threshold fs := by
    cases fs <;> norm_num [addl_medicare_threshold]
  unfold calculate_fica
  have hmin1 : min income social_security_cap ≤ income := min_le_left _ _
  have hmin0 : 0 ≤ min income social_security_cap :=
    le_min h (by norm_num [social_security_cap])
  by_cases hc : income > addl_medicare_threshold fs
  · rw [if_pos hc]
    constructor <;> nlinarith
  · rw [if_neg hc]
    constructor <;> nlinarith

/-- Claim C5: for every valid filing status and non-negative gross income,
post-tax income is at most the gross income and the effective rate lies in
[0, 1); at zero income the result is exactly (0, 0). -/
theorem post_tax_income_bounds (fs : FilingStatus) (income : ℚ) (h : 0 ≤ income) :
    (calculate_post_tax_income income fs).1 ≤ income ∧
    0 ≤ (calculate_post_tax_income income fs).2 ∧
    (calculate_post_tax_income income fs).2 < 1 ∧
    calculate_post_tax_income 0 fs = (0, 0) := by
  have hded : 0 ≤ std_deduction fs := by cases fs <;> norm_num [std_deduction]
  have h1 : (calculate_post_tax_income income fs).1 =
      income - bracket_tax (max 0 (income - std_deduction fs)) 0 (brackets fs) -
        calculate_fica income fs := rfl
  have h2 : (calculate_post_tax_income income fs).2 =
      if 0 < income then
        (bracket_tax (max 0 (income - std_deduction fs)) 0 (brackets fs) +
          calculate_fica income fs) / income
      else 0 := rfl
  set taxable := max 0 (income - std_deduction fs) with htx
  have htx0 : 0 ≤ taxable := le_max_left _ _
  have htxi : taxable ≤ income := max_le h (by linarith)
  have hbt := bracket_tax_bounds taxable (brackets fs) 0 (rates_bounded_brackets fs)
  have hmax : max 0 (taxable - 0) = taxable := by
    rw [sub_zero]
    exact max_eq_right htx0
  rw [hmax] at hbt
  have hf := fica_bounds income fs h
  refine ⟨?_, ?_, ?_, ?_⟩
  · rw [h1]
    linarith [hbt.1, hf.1]
  · rw [h2]
    by_cases hinc : 0 < income
    · rw [if_pos hinc]
      exact div_nonneg (by linarith [hbt.1, hf.1]) (le_of_lt hinc)
    · rw [if_neg hinc]
  · rw [h2]
    by_cases hinc : 0 < income
    · rw [if_pos hinc]
      rw [div_lt_one hinc]
      nlinarith [hbt.2, hf.2]
    · rw [if_neg hinc]
      norm_num
  · cases fs <;>
      norm_num [calculate_post_tax_income, bracket_tax, brackets, std_deduction,
        calculate_fica, addl_medicare_threshold, social_security_cap, max_def, min_def]

/-- Closed instance of post_tax_income_bounds at a concrete input. -/
theorem post_tax_income_bounds_witness :
    (0:ℚ) ≤ 100 ∧
    ((calculate_post_tax_income 100 FilingStatus.single).1 ≤ 100 ∧
     0 ≤ (calculate_post_tax_income 100 FilingStatus.single).2 ∧
     (calculate_post_tax_income 100 FilingStatus.single).2 < 1 ∧
     calculate_post_tax_income 0 FilingStatus.single = (0, 0)) :=
  ⟨by norm_num, post_tax_income_bounds FilingStatus.single 100 (by norm_num)⟩

/-- Claim C3: each of the Generational, Sustainable (comfy), and Supplemented
principal formulas raises the rate-ordering error exactly when
return_rate ≤ inflation_rate, and none of the three raises otherwise. -/
theorem rate_ordering_errors (income : ℚ) (dur : ℕ) (r i : ℚ) :
    (isErr (generational_wealth income dur r i) = true ↔ r ≤ i) ∧
    (isErr (comfy_retirement income dur r i) = true ↔ r ≤ i) ∧
    (isErr (supplemented_retirement income dur r i) = true ↔ r ≤ i) := by
  refine ⟨?_, ?_, ?_⟩ <;>
    simp only [generational_wealth, comfy_retirement, supplemented_retirement] <;>
    split <;> simp_all [isErr]

/-- Closed instance of rate_ordering_errors at a concrete input. -/
theorem rate_ordering_errors_witness :
    (isErr (generational_wealth 100 10 (3/100) (3/100)) = true ↔ (3:ℚ)/100 ≤ 3/100) ∧
    (isErr (comfy_retirement 100 10 (3/100) (3/100)) = true ↔ (3:ℚ)/100 ≤ 3/100) ∧
    (isErr (supplemented_retirement 100 10 (3/100) (3/100)) = true ↔ (3:ℚ)/100 ≤ 3/100) :=
  rate_ordering_errors 100 10 (3/100) (3/100)

/-- Claim C4: contribution sizing raises the invalid-rate error exactly when
return_rate ≤ 0; for return_rate > 0 and years ≥ 1 it returns
target * rate / ((1 + rate)^years - 1). -/
theorem required_contribution_spec (target r : ℚ) (dur : ℕ) :
    (isErr (required_constant_contribution target r dur) = true ↔ r ≤ 0) ∧
    (0 < r → 1 ≤ dur → required_constant_contribution target r dur =
      Except.ok (target * r / ((1 + r) ^ dur - 1))) := by
  constructor
  · simp only [required_constant_contribution]
    split <;> simp_all [isErr]
  · intro hr _
    simp only [required_constant_contribution]
    rw [if_neg (not_le.mpr hr)]

/-- Closed instance of required_contribution_spec at a concrete input. -/
theorem required_contribution_spec_witness :
    (0:ℚ) < 1 ∧ 1 ≤ 2 ∧
    required_constant_contribution 100 1 2 = Except.ok (100 * 1 / ((1 + 1) ^ 2 - 1)) :=
  ⟨by norm_num, by norm_num, (required_contribution_spec 100 1 2).2 (by norm_num) (by norm_num)⟩

/-- Claim C6: contribution sizing inverts the annuity future-value formula:
for rate > 0 and years ≥ 1, feeding the required contribution back through
constant_contribution recovers the target exactly (over exact arithmetic). -/
theorem contribution_roundtrip (target r : ℚ) (dur : ℕ)
    (hr : 0 < r) (hdur : 1 ≤ dur) :
    (required_constant_contribution target r dur).map
      (fun c => constant_contribution r dur c) = Except.ok target := by
  simp only [required_constant_contribution]
  rw [if_neg (not_le.mpr hr)]
  simp only [Except.map, constant_contribution]
  have hpow : 1 < (1 + r) ^ dur := by
    have h1 : (1:ℚ) < 1 + r := by linarith
    exact one_lt_pow₀ h1 (by omega)
  have hD : (1 + r) ^ dur - 1 ≠ 0 := by linarith
  have hr' : r ≠ 0 := ne_of_gt hr
  congr 1
  field_simp

/-- Closed instance of contribution_roundtrip at a concrete input. -/
theorem contribution_roundtrip_witness :
    (0:ℚ) < 1 ∧ 1 ≤ 1 ∧
    (required_constant_contribution 100 1 1).map
      (fun c => constant_contribution 1 1 c) = Except.ok 100 :=
  ⟨by norm_num, by norm_num, contribution_roundtrip 100 1 1 (by norm_num) (by norm_num)⟩

/-- Claim C2 counterexample: with return = inflation = 0.03 (which satisfies
return ≤ inflation + NG), the Nobility formula's fallback raises the
rate-ordering exception instead of returning a value. -/
theorem nobility_fallback_counterexample :
    (3:ℚ)/100 ≤ 3/100 + NG ∧
    nobility_wealth 100 10 (3/100) (3/100) =
      Except.error "Rate of return must be greater than inflation rate" := by
  constructor
  · norm_num [NG]
  · norm_num [nobility_wealth, generational_wealth, NG]

/-- Claim C2 (amended): whenever return_rate ≤ inflation_rate + NG, the
Nobility formula executes its warning and computes exactly what the
Generational formula computes on the same inputs — returning its value when
inflation < return, and propagating its rate-ordering error otherwise. -/
theorem nobility_fallback_matches_generational (income : ℚ) (dur : ℕ) (r i : ℚ)
    (h : r ≤ i + NG) :
    nobility_wealth income dur r i = generational_wealth income dur r i ∧
    nobility_warns r i = true := by
  refine ⟨?_, ?_⟩
  · simp only [nobility_wealth]
    rw [if_pos h]
  · simp [nobility_warns, h]

/-- Closed instance of nobility_fallback_matches_generational. -/
theorem nobility_fallback_matches_generational_witness :
    (4:ℚ)/100 ≤ 3/100 + NG ∧
    (nobility_wealth 100 10 (4/100) (3/100) = generational_wealth 100 10 (4/100) (3/100) ∧
     nobility_warns (4/100) (3/100) = true) :=
  ⟨by norm_num [NG],
   nobility_fallback_matches_generational 100 10 (4/100) (3/100) (by norm_num [NG])⟩

theorem except_bind_ok {ε α β : Type} (a : α) (f : α → Except ε β) :
    (Except.ok a : Except ε α) >>= f = f a := rfl

theorem except_bind_error {ε α β : Type} (e : ε) (f : α → Except ε β) :
    (Except.error e : Except ε α) >>= f = Except.error e := rfl

theorem except_pure {ε α : Type} (a : α) : (pure a : Except ε α) = Except.ok a := rfl

/-- The value of a successful `Except` computation, if any. -/
def okValue {ε α : Type} : Except ε α → Option α
| Except.error _ => none
| Except.ok a => some a

theorem analyze_roth_ira_ok (fi g i : ℚ) (it rt : ℕ) (goal : FinGoal) (lim p c : ℚ)
    (hp : calculate_principal_by_goal fi rt g i goal = Except.ok p)
    (hc : required_constant_contribution p g it = Except.ok c) :
    analyze_roth_ira fi g i it rt goal lim =
      Except.ok [("Principal Required", Metric.num p),
                 ("Yearly Contribution", Metric.num c),
                 ("Contribution Limit Met?", Metric.str (if c > lim then "Yes" else "No"))] := by
  simp only [analyze_roth_ira, hp, except_bind_ok, hc, except_pure]

theorem analyze_traditional_ira_ok (fi g i : ℚ) (it rt : ℕ) (goal : FinGoal)
    (fs : FilingStatus) (lim p c : ℚ)
    (hp : calculate_principal_by_goal (fi / (1 - (calculate_post_tax_income fi fs).2))
      rt g i goal = Except.ok p)
    (hc : required_constant_contribution p g it = Except.ok c) :
    analyze_traditional_ira fi g i it rt goal fs lim =
      Except.ok [("Principal Required", Metric.num p),
                 ("Yearly Contribution", Metric.num c),
                 ("Contribution Limit Met?", Metric.str (if c > lim then "Yes" else "No"))] := by
  simp only [analyze_traditional_ira, hp, except_bind_ok, hc, except_pure]

theorem analyze_traditional_401k_ok (fi g i : ℚ) (it rt : ℕ) (goal : FinGoal)
    (fs : FilingStatus) (lim m p base : ℚ)
    (hp : calculate_principal_by_goal (fi / (1 - (calculate_post_tax_income fi fs).2))
      rt g i goal = Except.ok p)
    (hb : required_constant_contribution p g it = Except.ok base) :
    analyze_traditional_401k fi g i it rt goal fs lim m =
      Except.ok [("Principal Required", Metric.num p),
                 ("Yearly Contribution", Metric.num (base * (1 - m))),
                 ("Employee Contribution", Metric.num (base * (1 - m))),
                 ("Employer Contribution", Metric.num (base * (1 - m) * m)),
                 ("Total Contribution", Metric.num (base * (1 - m) + base * (1 - m) * m)),
                 ("Contribution Limit Met?", Metric.str (if base > lim then "Yes" else "No"))] := by
  simp only [analyze_traditional_401k, hp, except_bind_ok, hb, except_pure]

theorem analyze_roth_401k_ok (fi g i : ℚ) (it rt : ℕ) (goal : FinGoal)
    (fs : FilingStatus) (lim m cur p base : ℚ)
    (hp : calculate_principal_by_goal fi rt g i goal = Except.ok p)
    (hb : required_constant_contribution p g it = Except.ok base) :
    analyze_roth_401k fi g i it rt goal fs lim m cur =
      Except.ok [("Principal Required", Metric.num p),
                 ("Yearly Contribution", Metric.num (base * (1 - m))),
                 ("Employee Contribution After-Tax", Metric.num (base * (1 - m))),
                 ("Employer Contribution Traditional", Metric.num (base * (1 - m) * m)),
                 ("Total Contribution", Metric.num (base * (1 - m) + base * (1 - m) * m)),
                 ("Effective Pre-Tax Cost",
                   Metric.num (base * (1 - m) / (1 - (calculate_post_tax_income cur fs).2))),
                 ("Contribution Limit Met?", Metric.str (if base > lim then "Yes" else "No"))] := by
  simp only [analyze_roth_401k, hp, except_bind_ok, hb, except_pure]

/-- Claim C10: the Brokerage analyzer computes its principal with the
drag-reduced growth rate growth × (1 − 0.15) but sizes the contribution with
the full growth rate, whenever both calls succeed. -/
theorem brokerage_drag_and_full_rate (fi g i : ℚ) (it rt : ℕ) (goal : FinGoal) (p c : ℚ)
    (hp : calculate_principal_by_goal fi rt (g - g * (15 / 100)) i goal = Except.ok p)
    (hc : required_constant_contribution p g it = Except.ok c) :
    analyze_brokerage_account fi g i it rt goal =
      Except.ok [("Principal Required", Metric.num p),
                 ("Yearly Contribution", Metric.num c)] := by
  simp only [analyze_brokerage_account, hp, except_bind_ok, hc, except_pure]

/-- Closed instance of brokerage_drag_and_full_rate at a concrete input. -/
theorem brokerage_drag_and_full_rate_witness :
    calculate_principal_by_goal 100 1 (1 - 1 * (15 / 100)) (3/100) FinGoal.Sustainable =
      Except.ok (2000/37) ∧
    required_constant_contribution (2000/37) 1 1 = Except.ok (2000/37) ∧
    analyze_brokerage_account 100 1 (3/100) 1 1 FinGoal.Sustainable =
      Except.ok [("Principal Required", Metric.num (2000/37)),
                 ("Yearly Contribution", Metric.num (2000/37))] := by
  have hp : calculate_principal_by_goal 100 1 (1 - 1 * (15 / 100)) (3/100)
      FinGoal.Sustainable = Except.ok (2000/37) := by
    norm_num [calculate_principal_by_goal, comfy_retirement]
  have hc : required_constant_contribution ((2000:ℚ)/37) 1 1 = Except.ok (2000/37) := by
    norm_num [required_constant_contribution]
  exact ⟨hp, hc, brokerage_drag_and_full_rate 100 1 (3/100) 1 1 FinGoal.Sustainable
    (2000/37) (2000/37) hp hc⟩

/-- Claim C9: for both IRA analyzers the annual contribution limit influences
only the limit flag: the Principal Required and Yearly Contribution fields do
not depend on the limit, and the flag is "Yes" exactly when the required
contribution strictly exceeds the limit (so equality yields "No"). -/
theorem ira_limit_noninterference (fi g i : ℚ) (it rt : ℕ) (goal : FinGoal)
    (fs : FilingStatus) (l1 l2 : ℚ) :
    ((analyze_traditional_ira fi g i it rt goal fs l1).map
        (fun r => (r.lookup "Principal Required", r.lookup "Yearly Contribution")) =
      (analyze_traditional_ira fi g i it rt goal fs l2).map
        (fun r => (r.lookup "Principal Required", r.lookup "Yearly Contribution"))) ∧
    ((analyze_roth_ira fi g i it rt goal l1).map
        (fun r => (r.lookup "Principal Required", r.lookup "Yearly Contribution")) =
      (analyze_roth_ira fi g i it rt goal l2).map
        (fun r => (r.lookup "Principal Required", r.lookup "Yearly Contribution"))) ∧
    (∀ res c, analyze_traditional_ira fi g i it rt goal fs l1 = Except.ok res →
      res.lookup "Yearly Contribution" = some (Metric.num c) →
      res.lookup "Contribution Limit Met?" =
        some (Metric.str (if c > l1 then "Yes" else "No"))) ∧
    (∀ res c, analyze_roth_ira fi g i it rt goal l1 = Except.ok res →
      res.lookup "Yearly Contribution" = some (Metric.num c) →
      res.lookup "Contribution Limit Met?" =
        some (Metric.str (if c > l1 then "Yes" else "No"))) := by
  refine ⟨?_, ?_, ?_, ?_⟩
  · cases hp : calculate_principal_by_goal
        (fi / (1 - (calculate_post_tax_income fi fs).2)) rt g i goal with
    | error e =>
      simp only [analyze_traditional_ira, hp, except_bind_error, Except.map]
    | ok p =>
      cases hc : required_constant_contribution p g it with
      | error e =>
        simp only [analyze_traditional_ira, hp, except_bind_ok, hc,
          except_bind_error, Except.map]
      | ok c =>
        rw [analyze_traditional_ira_ok fi g i it rt goal fs l1 p c hp hc,
          analyze_traditional_ira_ok fi g i it rt goal fs l2 p c hp hc]
        simp [Except.map, List.lookup]
  · cases hp : calculate_principal_by_goal fi rt g i goal with
    | error e =>
      simp only [analyze_roth_ira, hp, except_bind_error, Except.map]
    | ok p =>
      cases hc : required_constant_contribution p g it with
      | error e =>
        simp only [analyze_roth_ira, hp, except_bind_ok, hc,
          except_bind_error, Except.map]
      | ok c =>
        rw [analyze_roth_ira_ok fi g i it rt goal l1 p c hp hc,
          analyze_roth_ira_ok fi g i it rt goal l2 p c hp hc]
        simp [Except.map, List.lookup]
  · intro res c hres hlook
    cases hp : calculate_principal_by_goal
        (fi / (1 - (calculate_post_tax_income fi fs).2)) rt g i goal with
    | error e =>
      rw [analyze_traditional_ira, hp, except_bind_error] at hres
      exact absurd hres (by simp)
    | ok p =>
      cases hc : required_constant_contribution p g it with
      | error e =>
        rw [analyze_traditional_ira, hp, except_bind_ok, hc, except_bind_error] at hres
        exact absurd hres (by simp)
      | ok c' =>
        rw [analyze_traditional_ira_ok fi g i it rt goal fs l1 p c' hp hc] at hres
        obtain rfl : _ = res := Except.ok.inj hres
        simp only [List.lookup] at hlook ⊢
        simp at hlook ⊢
        rw [hlook]
  · intro res c hres hlook
    cases hp : calculate_principal_by_goal fi rt g i goal with
    | error e =>
      rw [analyze_roth_ira, hp, except_bind_error] at hres
      exact absurd hres (by simp)
    | ok p =>
      cases hc : required_constant_contribution p g it with
      | error e =>
        rw [analyze_roth_ira, hp, except_bind_ok, hc, except_bind_error] at hres
        exact absurd hres (by simp)
      | ok c' =>
        rw [analyze_roth_ira_ok fi g i it rt goal l1 p c' hp hc] at hres
        obtain rfl : _ = res := Except.ok.inj hres
        simp only [List.lookup] at hlook ⊢
        simp at hlook ⊢
        rw [hlook]

/-- Closed instance of ira_limit_noninterference at a concrete input. -/
theorem ira_limit_noninterference_witness :
    ((analyze_roth_ira 100 1 (3/100) 1 1 FinGoal.Sustainable 20).map
        (fun r => (r.lookup "Principal Required", r.lookup "Yearly Contribution")) =
      (analyze_roth_ira 100 1 (3/100) 1 1 FinGoal.Sustainable 7000).map
        (fun r => (r.lookup "Principal Required", r.lookup "Yearly Contribution"))) ∧
    analyze_roth_ira 100 1 (3/100) 1 1 FinGoal.Sustainable 20 =
      Except.ok [("Principal Required", Metric.num 50),
                 ("Yearly Contribution", Metric.num 50),
                 ("Contribution Limit Met?", Metric.str "Yes")] ∧
    [("Principal Required", Metric.num (50:ℚ)),
     ("Yearly Contribution", Metric.num 50),
     ("Contribution Limit Met?", Metric.str "Yes")].lookup "Contribution Limit Met?" =
      some (Metric.str (if (50:ℚ) > 20 then "Yes" else "No")) := by
  have hp : calculate_principal_by_goal 100 1 1 (3/100) FinGoal.Sustainable =
      Except.ok 50 := by
    norm_num [calculate_principal_by_goal, comfy_retirement]
  have hc : required_constant_contribution (50:ℚ) 1 1 = Except.ok 50 := by
    norm_num [required_constant_contribution]
  have hres : analyze_roth_ira 100 1 (3/100) 1 1 FinGoal.Sustainable 20 =
      Except.ok [("Principal Required", Metric.num 50),
                 ("Yearly Contribution", Metric.num 50),
                 ("Contribution Limit Met?", Metric.str "Yes")] := by
    rw [analyze_roth_ira_ok 100 1 (3/100) 1 1 FinGoal.Sustainable 20 50 50 hp hc]
    norm_num
  have H := ira_limit_noninterference 100 1 (3/100) 1 1 FinGoal.Sustainable
    FilingStatus.single 20 7000
  refine ⟨H.2.1, hres, ?_⟩
  exact H.2.2.2 _ 50 hres (by simp [List.lookup])

/-- Claim C7 counterexample: at a concrete scenario with employer match 1/2,
the Traditional 401(k) employee and employer shares sum to 75000/1847 while the
required contribution computed from the principal is 100000/1847, so the two
shares do not sum to the required contribution. -/
theorem traditional_401k_split_counterexample :
    required_constant_contribution ((100000:ℚ)/1847) 1 1 = Except.ok (100000/1847) ∧
    analyze_traditional_401k 100 1 (3/100) 1 1 FinGoal.Sustainable FilingStatus.single
        23500 (1/2) =
      Except.ok [("Principal Required", Metric.num (100000/1847)),
                 ("Yearly Contribution", Metric.num (50000/1847)),
                 ("Employee Contribution", Metric.num (50000/1847)),
                 ("Employer Contribution", Metric.num (25000/1847)),
                 ("Total Contribution", Metric.num (75000/1847)),
                 ("Contribution Limit Met?", Metric.str "No")] ∧
    ((50000:ℚ)/1847 + 25000/1847 ≠ 100000/1847) := by
  have hrate : (calculate_post_tax_income 100 FilingStatus.single).2 = 153/2000 := by
    norm_num [calculate_post_tax_income, bracket_tax, brackets, std_deduction,
      calculate_fica, addl_medicare_threshold, social_security_cap, max_def, min_def]
  have hp : calculate_principal_by_goal
      ((100:ℚ) / (1 - (calculate_post_tax_income 100 FilingStatus.single).2)) 1 1 (3/100)
      FinGoal.Sustainable = Except.ok (100000/1847) := by
    rw [hrate]
    norm_num [calculate_principal_by_goal, comfy_retirement]
  have hb : required_constant_contribution ((100000:ℚ)/1847) 1 1 =
      Except.ok (100000/1847) := by
    norm_num [required_constant_contribution]
  refine ⟨hb, ?_, by norm_num⟩
  rw [analyze_traditional_401k_ok 100 1 (3/100) 1 1 FinGoal.Sustainable FilingStatus.single
    23500 (1/2) (100000/1847) (100000/1847) hp hb]
  norm_num

/-- Claim C7 (amended): the Traditional 401(k) analyzer sets the employee share
to (1 − match) × required contribution and the employer share to match ×
employee share; the reported Total Contribution equals employee + employer
exactly, and the two shares sum to (1 − match²) × required contribution — not
to the required contribution itself unless the match is zero. -/
theorem traditional_401k_split (fi g i : ℚ) (it rt : ℕ) (goal : FinGoal)
    (fs : FilingStatus) (lim m p base : ℚ)
    (hp : calculate_principal_by_goal (fi / (1 - (calculate_post_tax_income fi fs).2))
      rt g i goal = Except.ok p)
    (hb : required_constant_contribution p g it = Except.ok base) :
    analyze_traditional_401k fi g i it rt goal fs lim m =
      Except.ok [("Principal Required", Metric.num p),
                 ("Yearly Contribution", Metric.num (base * (1 - m))),
                 ("Employee Contribution", Metric.num (base * (1 - m))),
                 ("Employer Contribution", Metric.num (base * (1 - m) * m)),
                 ("Total Contribution", Metric.num (base * (1 - m) + base * (1 - m) * m)),
                 ("Contribution Limit Met?", Metric.str (if base > lim then "Yes" else "No"))] ∧
    base * (1 - m) * m = m * (base * (1 - m)) ∧
    base * (1 - m) + base * (1 - m) * m = (1 - m ^ 2) * base := by
  exact ⟨analyze_traditional_401k_ok fi g i it rt goal fs lim m p base hp hb,
    by ring, by ring⟩

/-- Closed instance of traditional_401k_split at a concrete input. -/
theorem traditional_401k_split_witness :
    analyze_traditional_401k 100 1 (3/100) 1 1 FinGoal.Sustainable FilingStatus.single
        23500 (1/5) =
      Except.ok [("Principal Required", Metric.num (100000/1847)),
                 ("Yearly Contribution", Metric.num ((100000:ℚ)/1847 * (1 - 1/5))),
                 ("Employee Contribution", Metric.num ((100000:ℚ)/1847 * (1 - 1/5))),
                 ("Employer Contribution", Metric.num ((100000:ℚ)/1847 * (1 - 1/5) * (1/5))),
                 ("Total Contribution",
                   Metric.num ((100000:ℚ)/1847 * (1 - 1/5) + 100000/1847 * (1 - 1/5) * (1/5))),
                 ("Contribution Limit Met?",
                   Metric.str (if (100000:ℚ)/1847 > 23500 then "Yes" else "No"))] ∧
    (100000:ℚ)/1847 * (1 - 1/5) * (1/5) = 1/5 * (100000/1847 * (1 - 1/5)) ∧
    (100000:ℚ)/1847 * (1 - 1/5) + 100000/1847 * (1 - 1/5) * (1/5) =
      (1 - (1/5) ^ 2) * (100000/1847) := by
  have hrate : (calculate_post_tax_income 100 FilingStatus.single).2 = 153/2000 := by
    norm_num [calculate_post_tax_income, bracket_tax, brackets, std_deduction,
      calculate_fica, addl_medicare_threshold, social_security_cap, max_def, min_def]
  have hp : calculate_principal_by_goal
      ((100:ℚ) / (1 - (calculate_post_tax_income 100 FilingStatus.single).2)) 1 1 (3/100)
      FinGoal.Sustainable = Except.ok (100000/1847) := by
    rw [hrate]
    norm_num [calculate_principal_by_goal, comfy_retirement]
  have hb : required_constant_contribution ((100000:ℚ)/1847) 1 1 =
      Except.ok (100000/1847) := by
    norm_num [required_constant_contribution]
  exact traditional_401k_split 100 1 (3/100) 1 1 FinGoal.Sustainable FilingStatus.single
    23500 (1/5) (100000/1847) (100000/1847) hp hb

theorem analyze_retirement_options_ok (qol g : ℚ) (it rt : ℕ) (goal : FinGoal)
    (fs : FilingStatus) (em l4 li : ℚ) (res : List (String × AccountResult))
    (hres : analyze_retirement_options qol g it rt goal fs em l4 li = Except.ok res) :
    ∃ b ti ri t4 r4,
      analyze_brokerage_account (qol * (1 + I) ^ it) g I it rt goal = Except.ok b ∧
      analyze_traditional_ira (qol * (1 + I) ^ it) g I it rt goal fs li = Except.ok ti ∧
      analyze_roth_ira (qol * (1 + I) ^ it) g I it rt goal li = Except.ok ri ∧
      analyze_traditional_401k (qol * (1 + I) ^ it) g I it rt goal fs l4 em = Except.ok t4 ∧
      analyze_roth_401k (qol * (1 + I) ^ it) g I it rt goal fs l4 em qol = Except.ok r4 ∧
      res = [("Brokerage Account", b), ("Traditional IRA", ti), ("Roth IRA", ri),
             ("Traditional 401k", t4), ("Roth 401k", r4)] := by
  simp only [analyze_retirement_options] at hres
  cases hB : analyze_brokerage_account (qol * (1 + I) ^ it) g I it rt goal with
  | error e => rw [hB, except_bind_error] at hres; exact absurd hres (by simp)
  | ok b =>
  rw [hB, except_bind_ok] at hres
  cases hT : analyze_traditional_ira (qol * (1 + I) ^ it) g I it rt goal fs li with
  | error e => rw [hT, except_bind_error] at hres; exact absurd hres (by simp)
  | ok ti =>
  rw [hT, except_bind_ok] at hres
  cases hR : analyze_roth_ira (qol * (1 + I) ^ it) g I it rt goal li with
  | error e => rw [hR, except_bind_error] at hres; exact absurd hres (by simp)
  | ok ri =>
  rw [hR, except_bind_ok] at hres
  cases hT4 : analyze_traditional_401k (qol * (1 + I) ^ it) g I it rt goal fs l4 em with
  | error e => rw [hT4, except_bind_error] at hres; exact absurd hres (by simp)
  | ok t4 =>
  rw [hT4, except_bind_ok] at hres
  cases hR4 : analyze_roth_401k (qol * (1 + I) ^ it) g I it rt goal fs l4 em qol with
  | error e => rw [hR4, except_bind_error] at hres; exact absurd hres (by simp)
  | ok r4 =>
  rw [hR4, except_bind_ok, except_pure] at hres
  exact ⟨b, ti, ri, t4, r4, rfl, rfl, rfl, rfl, rfl, (Except.ok.inj hres).symm⟩

/-- Claim C8: the Orchestrator computes future_income = quality_of_life × (1 +
I)^investment_time and hands that single shared value to all five analyzers,
returning their results keyed by the five account-type names. -/
theorem orchestrator_shared_future_income (qol g : ℚ) (it rt : ℕ) (goal : FinGoal)
    (fs : FilingStatus) (em l4 li : ℚ) (res : List (String × AccountResult))
    (hres : analyze_retirement_options qol g it rt goal fs em l4 li = Except.ok res) :
    res.map Prod.fst = ["Brokerage Account", "Traditional IRA", "Roth IRA",
                        "Traditional 401k", "Roth 401k"] ∧
    res.lookup "Brokerage Account" =
      okValue (analyze_brokerage_account (qol * (1 + I) ^ it) g I it rt goal) ∧
    res.lookup "Traditional IRA" =
      okValue (analyze_traditional_ira (qol * (1 + I) ^ it) g I it rt goal fs li) ∧
    res.lookup "Roth IRA" =
      okValue (analyze_roth_ira (qol * (1 + I) ^ it) g I it rt goal li) ∧
    res.lookup "Traditional 401k" =
      okValue (analyze_traditional_401k (qol * (1 + I) ^ it) g I it rt goal fs l4 em) ∧
    res.lookup "Roth 401k" =
      okValue (analyze_roth_401k (qol * (1 + I) ^ it) g I it rt goal fs l4 em qol) := by
  obtain ⟨b, ti, ri, t4, r4, hB, hT, hR, hT4, hR4, rfl⟩ :=
    analyze_retirement_options_ok qol g it rt goal fs em l4 li res hres
  rw [hB, hT, hR, hT4, hR4]
  refine ⟨rfl, ?_, ?_, ?_, ?_, ?_⟩ <;> simp [List.lookup, okValue]

/-- Orchestrator output for the zero-income scenario with the default limits. -/
def zero_scenario_results : List (String × AccountResult) :=
[("Brokerage Account",
   [("Principal Required", Metric.num 0), ("Yearly Contribution", Metric.num 0)]),
 ("Traditional IRA",
   [("Principal Required", Metric.num 0), ("Yearly Contribution", Metric.num 0),
    ("Contribution Limit Met?", Metric.str "No")]),
 ("Roth IRA",
   [("Principal Required", Metric.num 0), ("Yearly Contribution", Metric.num 0),
    ("Contribution Limit Met?", Metric.str "No")]),
 ("Traditional 401k",
   [("Principal Required", Metric.num 0), ("Yearly Contribution", Metric.num 0),
    ("Employee Contribution", Metric.num 0), ("Employer Contribution", Metric.num 0),
    ("Total Contribution", Metric.num 0), ("Contribution Limit Met?", Metric.str "No")]),
 ("Roth 401k",
   [("Principal Required", Metric.num 0), ("Yearly Contribution", Metric.num 0),
    ("Employee Contribution After-Tax", Metric.num 0),
    ("Employer Contribution Traditional", Metric.num 0),
    ("Total Contribution", Metric.num 0), ("Effective Pre-Tax Cost", Metric.num 0),
    ("Contribution Limit Met?", Metric.str "No")])]

/-- Orchestrator output for the zero-income scenario with negative limits. -/
def zero_scenario_results_neg : List (String × AccountResult) :=
[("Brokerage Account",
   [("Principal Required", Metric.num 0), ("Yearly Contribution", Metric.num 0)]),
 ("Traditional IRA",
   [("Principal Required", Metric.num 0), ("Yearly Contribution", Metric.num 0),
    ("Contribution Limit Met?", Metric.str "Yes")]),
 ("Roth IRA",
   [("Principal Required", Metric.num 0), ("Yearly Contribution", Metric.num 0),
    ("Contribution Limit Met?", Metric.str "Yes")]),
 ("Traditional 401k",
   [("Principal Required", Metric.num 0), ("Yearly Contribution", Metric.num 0),
    ("Employee Contribution", Metric.num 0), ("Employer Contribution", Metric.num 0),
    ("Total Contribution", Metric.num 0), ("Contribution Limit Met?", Metric.str "Yes")]),
 ("Roth 401k",
   [("Principal Required", Metric.num 0), ("Yearly Contribution", Metric.num 0),
    ("Employee Contribution After-Tax", Metric.num 0),
    ("Employer Contribution Traditional", Metric.num 0),
    ("Total Contribution", Metric.num 0), ("Effective Pre-Tax Cost", Metric.num 0),
    ("Contribution Limit Met?", Metric.str "Yes")])]

theorem zero_scenario_eval :
    analyze_retirement_options 0 1 1 1 FinGoal.Sustainable FilingStatus.single
      (5/100) 23500 7000 = Except.ok zero_scenario_results := by
  norm_num [analyze_retirement_options, analyze_brokerage_account, analyze_traditional_ira,
    analyze_roth_ira, analyze_traditional_401k, analyze_roth_401k, zero_scenario_results,
    calculate_principal_by_goal, comfy_retirement, required_constant_contribution,
    calculate_post_tax_income, bracket_tax, brackets, std_deduction, calculate_fica,
    addl_medicare_threshold, social_security_cap, I, max_def, min_def,
    except_bind_ok, except_bind_error, except_pure]

theorem zero_scenario_neg_eval :
    analyze_retirement_options 0 1 1 1 FinGoal.Sustainable FilingStatus.single
      (5/100) (-1) (-1) = Except.ok zero_scenario_results_neg := by
  norm_num [analyze_retirement_options, analyze_brokerage_account, analyze_traditional_ira,
    analyze_roth_ira, analyze_traditional_401k, analyze_roth_401k, zero_scenario_results_neg,
    calculate_principal_by_goal, comfy_retirement, required_constant_contribution,
    calculate_post_tax_income, bracket_tax, brackets, std_deduction, calculate_fica,
    addl_medicare_threshold, social_security_cap, I, max_def, min_def,
    except_bind_ok, except_bind_error, except_pure]

/-- Closed instance of orchestrator_shared_future_income at a concrete input. -/
theorem orchestrator_shared_future_income_witness :
    analyze_retirement_options 0 1 1 1 FinGoal.Sustainable FilingStatus.single
      (5/100) 23500 7000 = Except.ok zero_scenario_results ∧
    (zero_scenario_results.map Prod.fst =
      ["Brokerage Account", "Traditional IRA", "Roth IRA",
       "Traditional 401k", "Roth 401k"] ∧
     zero_scenario_results.lookup "Brokerage Account" =
       okValue (analyze_brokerage_account (0 * (1 + I) ^ 1) 1 I 1 1 FinGoal.Sustainable) ∧
     zero_scenario_results.lookup "Traditional IRA" =
       okValue (analyze_traditional_ira (0 * (1 + I) ^ 1) 1 I 1 1 FinGoal.Sustainable
         FilingStatus.single 7000) ∧
     zero_scenario_results.lookup "Roth IRA" =
       okValue (analyze_roth_ira (0 * (1 + I) ^ 1) 1 I 1 1 FinGoal.Sustainable 7000) ∧
     zero_scenario_results.lookup "Traditional 401k" =
       okValue (analyze_traditional_401k (0 * (1 + I) ^ 1) 1 I 1 1 FinGoal.Sustainable
         FilingStatus.single 23500 (5/100)) ∧
     zero_scenario_results.lookup "Roth 401k" =
       okValue (analyze_roth_401k (0 * (1 + I) ^ 1) 1 I 1 1 FinGoal.Sustainable
         FilingStatus.single 23500 (5/100) 0)) :=
  ⟨zero_scenario_eval,
   orchestrator_shared_future_income 0 1 1 1 FinGoal.Sustainable FilingStatus.single
     (5/100) 23500 7000 zero_scenario_results zero_scenario_eval⟩

/-- Claim C1 counterexample: in an Orchestrator run where the uncapped Roth IRA
required contribution is 515000, far above the IRA ceiling of 7000, the
reported Yearly Contribution is the uncapped 515000 rather than the ceiling
(the flag is "Yes", but the field is not capped). -/
theorem roth_ira_cap_counterexample :
    (analyze_retirement_options 1000000 1 1 1 FinGoal.Sustainable FilingStatus.single
        (5/100) 23500 7000).map (fun res => res.lookup "Roth IRA") =
      Except.ok (some [("Principal Required", Metric.num 515000),
                       ("Yearly Contribution", Metric.num 515000),
                       ("Contribution Limit Met?", Metric.str "Yes")]) ∧
    (515000:ℚ) > 7000 ∧ (515000:ℚ) ≠ 7000 := by
  refine ⟨?_, by norm_num, by norm_num⟩
  norm_num [analyze_retirement_options, analyze_brokerage_account, analyze_traditional_ira,
    analyze_roth_ira, analyze_traditional_401k, analyze_roth_401k,
    calculate_principal_by_goal, comfy_retirement, required_constant_contribution,
    calculate_post_tax_income, bracket_tax, brackets, std_deduction, calculate_fica,
    addl_medicare_threshold, social_security_cap, I, max_def, min_def,
    except_bind_ok, except_bind_error, except_pure, Except.map, List.lookup]
  rfl

/-- Claim C1 (amended): whenever the uncapped required contribution (from
contribution sizing on the Roth IRA principal) strictly exceeds the IRA
ceiling, the Orchestrator's Roth IRA entry reports that uncapped contribution
itself as "Yearly Contribution" (it is not capped at the ceiling) together
with a "Contribution Limit Met?" flag of "Yes". -/
theorem roth_ira_uncapped_with_flag (qol g : ℚ) (it rt : ℕ) (goal : FinGoal)
    (fs : FilingStatus) (em l4 li : ℚ) (res : List (String × AccountResult)) (p c : ℚ)
    (hres : analyze_retirement_options qol g it rt goal fs em l4 li = Except.ok res)
    (hp : calculate_principal_by_goal (qol * (1 + I) ^ it) rt g I goal = Except.ok p)
    (hc : required_constant_contribution p g it = Except.ok c)
    (hgt : c > li) :
    res.lookup "Roth IRA" =
      some [("Principal Required", Metric.num p),
            ("Yearly Contribution", Metric.num c),
            ("Contribution Limit Met?", Metric.str "Yes")] := by
  obtain ⟨b, ti, ri, t4, r4, hB, hT, hR, hT4, hR4, rfl⟩ :=
    analyze_retirement_options_ok qol g it rt goal fs em l4 li res hres
  rw [analyze_roth_ira_ok (qol * (1 + I) ^ it) g I it rt goal li p c hp hc] at hR
  obtain rfl := Except.ok.inj hR
  simp [List.lookup, hgt]

/-- Closed instance of roth_ira_uncapped_with_flag at a concrete input. -/
theorem roth_ira_uncapped_with_flag_witness :
    analyze_retirement_options 0 1 1 1 FinGoal.Sustainable FilingStatus.single
      (5/100) (-1) (-1) = Except.ok zero_scenario_results_neg ∧
    (0:ℚ) > -1 ∧
    zero_scenario_results_neg.lookup "Roth IRA" =
      some [("Principal Required", Metric.num 0),
            ("Yearly Contribution", Metric.num 0),
            ("Contribution Limit Met?", Metric.str "Yes")] := by
  have hp : calculate_principal_by_goal ((0:ℚ) * (1 + I) ^ 1) 1 1 I FinGoal.Sustainable =
      Except.ok 0 := by
    norm_num [calculate_principal_by_goal, comfy_retirement, I]
  have hc : required_constant_contribution (0:ℚ) 1 1 = Except.ok 0 := by
    norm_num [required_constant_contribution]
  exact ⟨zero_scenario_neg_eval, by norm_num,
    roth_ira_uncapped_with_flag 0 1 1 1 FinGoal.Sustainable FilingStatus.single
      (5/100) (-1) (-1) zero_scenario_results_neg 0 0 zero_scenario_neg_eval hp hc
      (by norm_num)⟩

end FinPlan
